import Mathlib

/-!
Verification of the rustscript toolchain core: a shallow embedding of the
bytecode value/environment model, the semaphore wait micro-instruction of
the virtual machine, the builtin tan function, the parser front end and the
bytecode compiler, together with theorems settling the specified
behavioural properties.

Conventions of the embedding:
- Rust i64 literals are modelled by Int (no arithmetic overflow is exercised
  by the modelled code paths).
- Rust f64 values are modelled by their IEEE-754 bit pattern (structure f64
  below); native float operations such as f64::tan live outside the
  repository, so functions that use one take it as an explicit parameter.
- Shared mutable semaphore counters (Arc of Mutex of u64 in the source) are
  modelled by a store mapping semaphore identities to Nat counters, passed
  alongside the Runtime; a Semaphore value holds the identity.
- Fallible Rust functions returning Result are modelled with Except; a Rust
  panic is modelled by a distinguished non-success outcome.
-/

set_option autoImplicit false

namespace RustScript

/-- Rust f64 modelled opaquely by its 64-bit IEEE-754 bit pattern. The
numeric operations on it (tangent, etc.) are external to the repository and
are taken as parameters where needed. -/
structure f64 where
  bits : Nat
  deriving DecidableEq

/-- Bit pattern of std::f64::consts::PI. -/
def f64.PI : f64 := ⟨0x400921FB54442D18⟩

/-- Bit pattern of std::f64::consts::E. -/
def f64.E : f64 := ⟨0x4005BF0A8B145769⟩

/-- Bit pattern of std::f64::MAX. -/
def f64.MAX : f64 := ⟨0x7FEFFFFFFFFFFFFF⟩

/-- Bit pattern of std::f64::MIN. -/
def f64.MIN : f64 := ⟨0xFFEFFFFFFFFFFFFF⟩

/-- Bit pattern of std::f64::EPSILON. -/
def f64.EPSILON : f64 := ⟨0x3CB0000000000000⟩

/-- i64::MAX. -/
def i64.MAX : Int := 9223372036854775807

/-- i64::MIN. -/
def i64.MIN : Int := -9223372036854775808

/-- Symbols are strings (bytecode crate: type Symbol = String). -/
abbrev Symbol := String

/-- The kind of a closure (bytecode crate FnType): user-defined or builtin. -/
inductive FnType where
  | User
  | Builtin
  deriving DecidableEq

/-- The tagged runtime datum (bytecode crate Value). A Closure carries its
kind, symbol, parameter names, code address and captured environment; the
captured environment of a builtin is a fresh dangling Weak reference
(Weak::new() in tan.rs), modelled as none. A Semaphore value is a shared
handle, modelled by the identity of its counter in the semaphore store. -/
inductive Value where
  | Int (i : Int)
  | Float (f : f64)
  | Bool (b : Bool)
  | Unit
  | Closure (fn_type : FnType) (sym : Symbol) (prms : List Symbol)
      (addr : Nat) (env : Option Nat)
  | Semaphore (id : Nat)
  deriving DecidableEq

/-- The VM error enum (vm/ignite/src/error.rs VmError), variant for variant;
payloads that are formatted values in Rust are carried as strings. -/
inductive VmError where
  | Io (msg : String)
  | FileDoesNotExist (path : String)
  | NotO2File (path : String)
  | UnboundedName (sym : String)
  | OperandStackUnderflow
  | RuntimeStackUnderflow
  | NoThreadsInReadyQueue
  | PcOutOfBounds (pc : Nat)
  | BadType (expected : String) (found : String)
  | IllegalArgument (msg : String)
  | UnsupportedOperation (op : String) (ty : String)
  | TypeMismatch (expected : String) (found : String)
  | ArityParamsMismatch (arity : Nat) (params : Nat)
  | InsufficientArguments (expected : Nat) (got : Nat)
  | EnvironmentDroppedError
  | UnknownBuiltin (sym : String)
  deriving DecidableEq

/-- Modelled from the spec: the kind name of a Value, as carried in the
expected/found fields of BadType errors (spec section 4.1: conversions fail
with a BadType/TypeMismatch error carrying the expected and found kind
names). The Display impls live in the bytecode crate, outside src. -/
def Value.type_name : Value → String
  | .Int _ => "int"
  | .Float _ => "float"
  | .Bool _ => "bool"
  | .Unit => "unit"
  | .Closure _ _ _ _ _ => "closure"
  | .Semaphore _ => "semaphore"

/-- Modelled from the spec: the TryFrom conversion from Value to Semaphore
used by wait.rs (the impl lives in the bytecode crate, outside src). Per
spec section 4.1, extracting a native datum from a Value of the wrong
variant fails with a BadType error carrying the expected and found kinds. -/
def Value.try_into_sem : Value → Except VmError Nat
  | .Semaphore id => .ok id
  | v => .error (VmError.BadType "semaphore" v.type_name)

/-- Modelled from the spec: the TryFrom conversion from Value to f64 used by
tan_impl (the impl lives in the bytecode crate, outside src). Per spec
section 4.1 it fails with a BadType error on a non-Float value. -/
def Value.try_into_f64 : Value → Except VmError f64
  | .Float f => .ok f
  | v => .error (VmError.BadType "float" v.type_name)

/-- A lexical scope frame (bytecode crate Environment): an optional parent
reference and a mapping from symbols to values. The Rust Rc of RefCell
sharing is modelled structurally: get only reads, set rebuilds the local
frame and leaves the parent subterm untouched. The HashMap is modelled as an
association list with unique keys maintained by insertion. -/
inductive Environment where
  | mk (parent : Option Environment) (env : List (Symbol × Value))

/-- The parent component of a frame. -/
def Environment.parent : Environment → Option Environment
  | .mk p _ => p

/-- The local mapping component of a frame. -/
def Environment.frame : Environment → List (Symbol × Value)
  | .mk _ m => m

/-- HashMap::get on the association-list model: first (unique) matching key. -/
def frameLookup : List (Symbol × Value) → Symbol → Option Value
  | [], _ => none
  | (k, v) :: rest, s => if k = s then some v else frameLookup rest s

/-- HashMap::insert on the association-list model: overwrite the key. -/
def frameInsert (m : List (Symbol × Value)) (k : Symbol) (v : Value) :
    List (Symbol × Value) :=
  (k, v) :: m.filter (fun p => p.1 ≠ k)

/-- Environment::new — the root frame with no parent. -/
def Environment.new : Environment := .mk none []

mutual

/-- Environment::get — look the symbol up in the local frame, else recurse
into the parent chain; None when the chain is exhausted. -/
def Environment.get : Environment → Symbol → Option Value
  | .mk parent frame, sym =>
    match frameLookup frame sym with
    | some v => some v
    | none => Environment.getFromParent parent sym

/-- The else-branch of Environment::get: delegate the lookup to the parent
frame when there is one. -/
def Environment.getFromParent : Option Environment → Symbol → Option Value
  | none, _ => none
  | some p, sym => Environment.get p sym

end

/-- Environment::set — insert or overwrite the symbol in the local frame
only; the parent reference is untouched. -/
def Environment.set : Environment → Symbol → Value → Environment
  | .mk parent frame, sym, val => .mk parent (frameInsert frame sym val)

/-- Environment::new_global — the root frame pre-populated exactly as the
body of new_global does: the logical constants true and false, the math
constants PI and E, and the environment constants MAX_INT, MIN_INT,
MAX_FLOAT, MIN_FLOAT, EPSILON. The builtin-function registration in the
source is a commented-out stub, so no builtin symbol is bound. -/
def Environment.new_global : Environment :=
  ((((((((Environment.new.set "true" (Value.Bool true)).set
    "false" (Value.Bool false)).set
    "PI" (Value.Float f64.PI)).set
    "E" (Value.Float f64.E)).set
    "MAX_INT" (Value.Int i64.MAX)).set
    "MIN_INT" (Value.Int i64.MIN)).set
    "MAX_FLOAT" (Value.Float f64.MAX)).set
    "MIN_FLOAT" (Value.Float f64.MIN)).set
    "EPSILON" (Value.Float f64.EPSILON)

/-- builtin/math/tan.rs TAN_SYM. -/
def TAN_SYM : Symbol := "tan"

/-- builtin/math/tan.rs tan(): the builtin closure Value for tangent, with
one parameter named x, code address 0 and a dangling (absent) captured
environment. -/
def tanClosure : Value :=
  Value.Closure FnType.Builtin TAN_SYM ["x"] 0 none

/-- builtin/math/tan.rs tan_impl: convert the argument to f64 (propagating
the conversion error) and return the Float of its tangent. The native
f64::tan is external to the repository and is passed in as ftan. -/
def tan_impl (ftan : f64 → f64) (x : Value) : Except VmError Value :=
  match Value.try_into_f64 x with
  | .error e => .error e
  | .ok f => .ok (Value.Float (ftan f))

/-- One logical thread of execution (vm Thread struct): its identity, its
program counter and its operand stack. The runtime (call) stack and the
environment reference play no role in the modelled instruction and are
omitted. -/
structure Thread where
  thread_id : Nat
  pc : Nat
  operand_stack : List Value
  deriving DecidableEq

/-- The machine state threaded through instruction handlers (vm Runtime
struct): the currently-running thread, the FIFO ready queue and the FIFO
blocked queue of (thread, semaphore) pairs. The shared semaphore counters
live in a separate store (see SemStore), mirroring the Arc-shared Mutex
counters outside the Runtime struct. -/
structure Runtime where
  current_thread : Thread
  ready_queue : List Thread
  blocked_queue : List (Thread × Nat)
  deriving DecidableEq

/-- The shared heap of semaphore counters: counter value per semaphore
identity. Counters are u64 in the source and never negative, hence Nat. -/
abbrev SemStore := Nat → Nat

/-- Pointwise update of the semaphore store at one identity. -/
def SemStore.update (s : SemStore) (i n : Nat) : SemStore :=
  fun j => if j = i then n else s j

/-- micro_code/wait.rs wait: pop the top operand-stack value of the current
thread (OperandStackUnderflow if empty), convert it to a Semaphore
(propagating the conversion error); if its counter is positive, decrement it
and keep running; otherwise move the (popped) current thread, paired with
the semaphore, to the back of the blocked queue and promote the front of the
ready queue to current, failing with NoThreadsInReadyQueue if the ready
queue is empty. On failure no successor state is produced (the Rust
function consumes the Runtime by value and returns only the error). -/
def wait (sems : SemStore) (rt : Runtime) : Except VmError (Runtime × SemStore) :=
  match rt.current_thread.operand_stack with
  | [] => .error VmError.OperandStackUnderflow
  | v :: rest =>
    match Value.try_into_sem v with
    | .error e => .error e
    | .ok semId =>
      let ct : Thread := { rt.current_thread with operand_stack := rest }
      if sems semId > 0 then
        .ok ({ rt with current_thread := ct },
             SemStore.update sems semId (sems semId - 1))
      else
        let blocked := rt.blocked_queue ++ [(ct, semId)]
        match rt.ready_queue with
        | [] => .error VmError.NoThreadsInReadyQueue
        | next :: ready_rest =>
          .ok ({ current_thread := next,
                 ready_queue := ready_rest,
                 blocked_queue := blocked }, sems)

/-- Outcome of a serde serialize call: success with the serializer output,
a serializer-side error, or a Rust panic with its message. -/
inductive SerializeOutcome (OkT ErrT : Type) where
  | ok (val : OkT)
  | err (e : ErrT)
  | panicked (msg : String)

/-- environment.rs impl Serialize for W of Rc of RefCell of Environment:
the body unconditionally panics with the message below, for every
serializer, before touching the serializer. The serializer type and its
Ok/Error associated types are parameters. -/
def wEnvSerialize (S OkT ErrT : Type) (_serializer : S) (_env : Environment) :
    SerializeOutcome OkT ErrT :=
  .panicked "Environment should not be serialized"

/-- Modelled from the spec: the token type of the external lexer crate,
with exactly the variants the parser in src consumes (integer, float and
boolean literals, identifiers, the let keyword, the assignment equals, the
statement separator, the closing brace and the four arithmetic operator
tokens). -/
inductive Token where
  | Integer (val : Int)
  | Float (val : f64)
  | Bool (val : Bool)
  | Ident (name : String)
  | Let
  | Eq
  | Semi
  | CloseBrace
  | Plus
  | Minus
  | Star
  | Slash
  deriving DecidableEq

/-- Modelled from the spec: the Display rendering of a token, used only in
parser error messages. -/
def Token.toString : Token → String
  | .Integer _ => "integer"
  | .Float _ => "float"
  | .Bool _ => "bool"
  | .Ident name => name
  | .Let => "let"
  | .Eq => "="
  | .Semi => ";"
  | .CloseBrace => "\x7d"
  | .Plus => "+"
  | .Minus => "-"
  | .Star => "*"
  | .Slash => "/"

/-- parser BinOpType. -/
inductive BinOpType where
  | Add
  | Sub
  | Mul
  | Div
  deriving DecidableEq

mutual

/-- parser Expr: literal expressions, binary operator expressions and block
expressions. -/
inductive Expr where
  | Integer (val : Int)
  | Float (val : f64)
  | Bool (val : Bool)
  | BinOpExpr (op : BinOpType) (lhs rhs : Expr)
  | Block (seq : BlockSeq)

/-- parser Decl: a let statement, an expression statement or a block. -/
inductive Decl where
  | LetStmt (stmt : LetStmtData)
  | ExprStmt (e : Expr)
  | Block (seq : BlockSeq)

/-- parser LetStmt: bound identifier and right-hand expression. -/
inductive LetStmtData where
  | mk (ident : String) (expr : Expr)

/-- parser BlockSeq: a sequence of declarations with an optional trailing
expression (the Rc around the trailing expression is dropped). -/
inductive BlockSeq where
  | mk (decls : List Decl) (last_expr : Option Expr)

end

/-- The declarations of a BlockSeq. -/
def BlockSeq.decls : BlockSeq → List Decl
  | .mk ds _ => ds

/-- The optional trailing expression of a BlockSeq. -/
def BlockSeq.last_expr : BlockSeq → Option Expr
  | .mk _ le => le

/-- Decl::to_expr. -/
def Decl.to_expr : Decl → Expr
  | .LetStmt (.mk _ e) => e
  | .ExprStmt e => e
  | .Block seq => Expr.Block seq

/-- parser ParseError. -/
structure ParseError where
  msg : String
  deriving DecidableEq

/-- The parser state: the previously consumed token (prev_tok) and the
remaining token stream of the peekable lexer. -/
structure ParserSt where
  prev_tok : Option Token
  lexer : List Token
  deriving DecidableEq

/-- Parser::advance — store the peeked token as prev_tok and move the lexer
up; a no-op when the lexer is exhausted. -/
def ParserSt.advance : ParserSt → ParserSt
  | st =>
    match st.lexer with
    | [] => st
    | t :: rest => { prev_tok := some t, lexer := rest }

/-- Parser::is_peek_token_type. -/
def ParserSt.is_peek_token_type (st : ParserSt) (token : Token) : Bool :=
  match st.lexer.head? with
  | none => false
  | some t => t = token

/-- Parser::expect_token_type. -/
def ParserSt.expect_token_type (st : ParserSt) (token : Token)
    (expected_msg : String) : Except ParseError Unit :=
  if st.is_peek_token_type token then .ok () else .error ⟨expected_msg⟩

/-- Parser::consume_token_type — expect the token type and advance past it. -/
def ParserSt.consume_token_type (st : ParserSt) (token : Token)
    (expected_msg : String) : Except ParseError ParserSt :=
  if st.is_peek_token_type token then .ok st.advance else .error ⟨expected_msg⟩

/-- Parser::expect_prev_tok. -/
def ParserSt.expect_prev_tok (st : ParserSt) : Except ParseError Token :=
  match st.prev_tok with
  | some t => .ok t
  | none => .error ⟨"Expected previous token"⟩

/-- Parser::string_from_ident — render the peeked token (only ever called
under an Ident guard). -/
def string_from_ident : Option Token → String
  | some t => t.toString
  | none => ""

/-- Parser::get_infix_bp — the (left, right) binding powers of an operator
token; an error on any other token. -/
def get_infix_bp (token : Token) : Except ParseError (Nat × Nat) :=
  match token with
  | .Plus | .Minus => .ok (1, 2)
  | .Star | .Slash => .ok (3, 4)
  | t => .error ⟨"Expected infix operator but got: " ++ t.toString ++ ""⟩

mutual

/-- Parser::parse_expr, first half: build the literal left-hand side from
prev_tok, then enter the operator loop. Recursion is bounded by fuel; fuel
exhaustion is a distinguished parse error never reached on the inputs the
theorems use. -/
def parse_expr (fuel : Nat) (min_bp : Nat) (st : ParserSt) :
    Except ParseError (Decl × ParserSt) :=
  match fuel with
  | 0 => .error ⟨"out of fuel"⟩
  | fuel + 1 =>
    match st.expect_prev_tok with
    | .error e => .error e
    | .ok prev =>
      match prev with
      | .Integer val => parse_expr_loop fuel min_bp (Decl.ExprStmt (Expr.Integer val)) st
      | .Float val => parse_expr_loop fuel min_bp (Decl.ExprStmt (Expr.Float val)) st
      | .Bool val => parse_expr_loop fuel min_bp (Decl.ExprStmt (Expr.Bool val)) st
      | t => .error ⟨"Unexpected token - not an expression: " ++ t.toString ++ ""⟩

/-- Parser::parse_expr, the operator loop. Faithful to the source: the loop
parses right-hand sides at the right binding power but never folds them into
lhs (the source drops rhs into a dbg! and returns the original lhs). -/
def parse_expr_loop (fuel : Nat) (min_bp : Nat) (lhs : Decl) (st : ParserSt) :
    Except ParseError (Decl × ParserSt) :=
  match fuel with
  | 0 => .error ⟨"out of fuel"⟩
  | fuel + 1 =>
    match st.lexer.head? with
    | none => .ok (lhs, st)
    | some tok =>
      if tok = Token.Semi ∨ tok = Token.CloseBrace then .ok (lhs, st)
      else
        match get_infix_bp tok with
        | .error e => .error e
        | .ok (l_bp, r_bp) =>
          let st1 := st.advance
          if l_bp < min_bp then .ok (lhs, st1)
          else
            let st2 := st1.advance
            match parse_expr fuel r_bp st2 with
            | .error e => .error e
            | .ok (_rhs, st3) => parse_expr_loop fuel min_bp lhs st3

/-- Parser::parse_decl — dispatch on prev_tok: a literal starts an
expression, the let keyword a let statement, anything else is an error. -/
def parse_decl (fuel : Nat) (st : ParserSt) : Except ParseError (Decl × ParserSt) :=
  match fuel with
  | 0 => .error ⟨"out of fuel"⟩
  | fuel + 1 =>
    match st.expect_prev_tok with
    | .error e => .error e
    | .ok prev =>
      match prev with
      | .Integer _ | .Float _ | .Bool _ => parse_expr fuel 0 st
      | .Let => parse_let fuel st
      | t => .error ⟨"Unexpected token: " ++ t.toString ++ ""⟩

/-- Parser::parse_let — expect an identifier (the macro-expanded message is
the source's literal concatenation), the equals sign, parse the right-hand
declaration, reject a nested let, and require a following semicolon. -/
def parse_let (fuel : Nat) (st : ParserSt) : Except ParseError (Decl × ParserSt) :=
  match fuel with
  | 0 => .error ⟨"out of fuel"⟩
  | fuel + 1 =>
    match st.lexer.head? with
    | some (.Ident _) =>
      let ident := string_from_ident st.lexer.head?
      let st1 := st.advance
      match st1.consume_token_type Token.Eq "Expected =" with
      | .error e => .error e
      | .ok st2 =>
        let st3 := st2.advance
        match parse_decl fuel st3 with
        | .error e => .error e
        | .ok (expr, st4) =>
          match expr with
          | .LetStmt _ => .error ⟨"Cannot assign to a let statement"⟩
          | _ =>
            match st4.expect_token_type Token.Semi "Expected semicolon after let" with
            | .error e => .error e
            | .ok _ => .ok (Decl.LetStmt (.mk ident expr.to_expr), st4)
    | _ => .error ⟨"Expected Expected identifier"⟩

end

/-- Parser::parse_seq — the statement loop: while tokens remain, advance and
parse a declaration; at end-of-input or a closing brace the declaration
becomes the trailing expression; after a semicolon it is pushed as a
statement; anything else is a missing-semicolon error. -/
def parse_seq (fuel : Nat) (st : ParserSt) (decls : List Decl)
    (last_expr : Option Expr) : Except ParseError BlockSeq :=
  match fuel with
  | 0 => .error ⟨"out of fuel"⟩
  | fuel + 1 =>
    match st.lexer.head? with
    | none => .ok (BlockSeq.mk decls last_expr)
    | some _ =>
      let st1 := st.advance
      match parse_decl fuel st1 with
      | .error e => .error e
      | .ok (expr, st2) =>
        match st2.lexer.head? with
        | none => .ok (BlockSeq.mk decls (some expr.to_expr))
        | some t =>
          if t = Token.CloseBrace then
            .ok (BlockSeq.mk decls (some expr.to_expr))
          else if t = Token.Semi then
            parse_seq fuel st2.advance (decls ++ [expr]) last_expr
          else
            .error ⟨"Expected semicolon"⟩

/-- Parser::parse — parse the whole token stream as one implicit block,
starting from a fresh parser state, with fuel ample for the stream. -/
def parseToks (toks : List Token) : Except ParseError BlockSeq :=
  parse_seq (4 * toks.length + 8) ⟨none, toks⟩ [] none

/-- compiler CompileError (the message wrapper). Code paths the compiler
leaves as unimplemented! panics are modelled as this error with the message
unimplemented, since both are non-success outcomes. -/
structure CompileError where
  msg : String
  deriving DecidableEq

/-- Modelled from the spec: the bytecode instruction record (ByteCode in the
bytecode crate, not under src), with the variants the compiler in src
emits: load-constant, pop and done. -/
inductive ByteCode where
  | LDC (v : Value)
  | POP
  | DONE
  deriving DecidableEq

/-- Compiler::compile_expr — literals become load-constant of the matching
Value; other expressions are unimplemented. -/
def compile_expr : Expr → Except CompileError ByteCode
  | .Integer val => .ok (ByteCode.LDC (Value.Int val))
  | .Float val => .ok (ByteCode.LDC (Value.Float val))
  | .Bool val => .ok (ByteCode.LDC (Value.Bool val))
  | _ => .error ⟨"unimplemented"⟩

/-- Compiler::compile_decl — an expression statement compiles its
expression; let statements and blocks are unimplemented. -/
def compile_decl : Decl → Except CompileError ByteCode
  | .ExprStmt e => compile_expr e
  | _ => .error ⟨"unimplemented"⟩

/-- The statement loop of Compiler::compile: each declaration's code is
emitted followed by a POP that discards the statement's result. -/
def compileDecls : List Decl → Except CompileError (List ByteCode)
  | [] => .ok []
  | d :: ds =>
    match compile_decl d with
    | .error e => .error e
    | .ok code =>
      match compileDecls ds with
      | .error e => .error e
      | .ok rest => .ok (code :: ByteCode.POP :: rest)

/-- Compiler::compile — compile every declaration (each followed by POP),
then the optional trailing expression, then append DONE. -/
def Compiler.compile (program : BlockSeq) : Except CompileError (List ByteCode) :=
  match compileDecls program.decls with
  | .error e => .error e
  | .ok stmts =>
    match program.last_expr with
    | none => .ok (stmts ++ [ByteCode.DONE])
    | some e =>
      match compile_expr e with
      | .error err => .error err
      | .ok code => .ok (stmts ++ [code] ++ [ByteCode.DONE])

/-- Modelled from the spec: the lexer (an external collaborator crate)
tokenizes the source program 42; as an integer literal followed by the
statement separator. -/
def lex_42_semi : List Token := [Token.Integer 42, Token.Semi]

/-- Modelled from the spec: the lexer tokenizes the source program 42 as a
single integer literal. -/
def lex_42 : List Token := [Token.Integer 42]

/-- The parse-then-compile pipeline, as in the compiler test helper: parse
the token stream and compile the resulting block sequence, surfacing either
stage's error message. -/
def compileToks (toks : List Token) : Except String (List ByteCode) :=
  match parseToks toks with
  | .error e => .error e.msg
  | .ok seq =>
    match Compiler.compile seq with
    | .error e => .error e.msg
    | .ok bc => .ok bc

/-- Modelled from the spec: one fetch-decode-execute step sequence of the
dispatcher (spec section 4.3) restricted to the instructions the compiled
programs of interest contain: LDC pushes its literal, POP discards the top
of the operand stack, DONE halts and the final value is the top of the
operand stack, Unit when everything was popped. Fuel bounds the loop; a
stuck or out-of-fuel run yields none. -/
def runBytecode : Nat → List ByteCode → Nat → List Value → Option Value
  | 0, _, _, _ => none
  | fuel + 1, prog, pc, stack =>
    match prog.get? pc with
    | none => none
    | some instr =>
      match instr with
      | .LDC v => runBytecode fuel prog (pc + 1) (v :: stack)
      | .POP =>
        match stack with
        | [] => none
        | _ :: rest => runBytecode fuel prog (pc + 1) rest
      | .DONE => some (stack.headD Value.Unit)

/-- Modelled from the spec: drive a loaded program to completion from
program counter 0 with an empty operand stack. -/
def runProgram (prog : List ByteCode) : Option Value :=
  runBytecode (prog.length + 1) prog 0 []

/-- The Value-to-Semaphore conversion fails with the BadType error on every
non-Semaphore value. -/
theorem try_into_sem_of_not_sem (v : Value)
    (hv : ∀ id, v ≠ Value.Semaphore id) :
    v.try_into_sem = .error (VmError.BadType "semaphore" v.type_name) := by
  cases v
  case Semaphore id => exact absurd rfl (hv id)
  all_goals rfl

/-- C1: for every runtime whose current thread's top operand-stack value is
a Semaphore whose counter is 0 and whose ready queue is non-empty, wait
appends the current thread (its operand stack popped), paired with that
semaphore, to the back of the blocked queue, makes the front thread of the
ready queue the new current thread, and leaves the semaphore store
unchanged. -/
theorem c1_wait_blocks_and_promotes
    (sems : SemStore) (rt : Runtime) (i : Nat) (rest : List Value)
    (next : Thread) (ready_rest : List Thread)
    (hstack : rt.current_thread.operand_stack = Value.Semaphore i :: rest)
    (hzero : sems i = 0)
    (hready : rt.ready_queue = next :: ready_rest) :
    wait sems rt =
      .ok ({ current_thread := next,
             ready_queue := ready_rest,
             blocked_queue := rt.blocked_queue ++
               [({ rt.current_thread with operand_stack := rest }, i)] },
           sems) := by
  unfold wait
  rw [hstack]
  simp [Value.try_into_sem, hzero, hready]

/-- Witness for C1 at a concrete runtime: main thread 0 holding semaphore 5
at count 0, ready queue holding thread 1. -/
theorem c1_witness :
    wait (fun _ => 0) ⟨⟨0, 0, [Value.Semaphore 5]⟩, [⟨1, 0, []⟩], []⟩ =
      .ok (⟨⟨1, 0, []⟩, [], [(⟨0, 0, []⟩, 5)]⟩, fun _ => 0) :=
  c1_wait_blocks_and_promotes (fun _ => 0)
    ⟨⟨0, 0, [Value.Semaphore 5]⟩, [⟨1, 0, []⟩], []⟩ 5 [] ⟨1, 0, []⟩ []
    rfl rfl rfl

/-- C2: for every runtime whose current thread's top operand-stack value is
a Semaphore with positive counter, wait decrements that counter by exactly
one, leaves every other counter unchanged, and returns the runtime with the
same current thread (its operand stack popped) and untouched ready and
blocked queues. -/
theorem c2_wait_decrements
    (sems : SemStore) (rt : Runtime) (i : Nat) (rest : List Value)
    (hstack : rt.current_thread.operand_stack = Value.Semaphore i :: rest)
    (hpos : 0 < sems i) :
    wait sems rt =
      .ok ({ rt with current_thread :=
               { rt.current_thread with operand_stack := rest } },
           SemStore.update sems i (sems i - 1))
    ∧ SemStore.update sems i (sems i - 1) i + 1 = sems i
    ∧ (∀ j, j ≠ i → SemStore.update sems i (sems i - 1) j = sems j) := by
  refine ⟨?_, ?_, ?_⟩
  · unfold wait
    rw [hstack]
    simp [Value.try_into_sem, hpos]
  · show (if i = i then sems i - 1 else sems i) + 1 = sems i
    rw [if_pos rfl]
    omega
  · intro j hj
    simp [SemStore.update, hj]

/-- Witness for C2 at a concrete runtime: thread 0 waits on semaphore 5
whose counter is 2; the counter becomes 1 and thread 0 keeps running. -/
theorem c2_witness :
    wait (fun _ => 2) ⟨⟨0, 0, [Value.Semaphore 5]⟩, [], []⟩ =
      .ok (⟨⟨0, 0, []⟩, [], []⟩, SemStore.update (fun _ => 2) 5 1) :=
  (c2_wait_decrements (fun _ => 2) ⟨⟨0, 0, [Value.Semaphore 5]⟩, [], []⟩ 5 []
    rfl (by decide)).1

/-- C3: for every runtime whose current thread's top operand-stack value is
a Semaphore with counter 0 and whose ready queue is empty, wait fails with
NoThreadsInReadyQueue; no successor state is produced, so no queue of any
runtime is mutated by the failed operation. -/
theorem c3_wait_deadlock_error
    (sems : SemStore) (rt : Runtime) (i : Nat) (rest : List Value)
    (hstack : rt.current_thread.operand_stack = Value.Semaphore i :: rest)
    (hzero : sems i = 0)
    (hready : rt.ready_queue = []) :
    wait sems rt = .error VmError.NoThreadsInReadyQueue
    ∧ ∀ r : Runtime × SemStore, wait sems rt ≠ .ok r := by
  have h : wait sems rt = .error VmError.NoThreadsInReadyQueue := by
    unfold wait
    rw [hstack]
    simp [Value.try_into_sem, hzero, hready]
  refine ⟨h, fun r hr => ?_⟩
  rw [h] at hr
  exact Except.noConfusion hr

/-- Witness for C3 at a concrete runtime: thread 0 waits on semaphore 0
whose counter is 0 with nobody ready. -/
theorem c3_witness :
    wait (fun _ => 0) ⟨⟨0, 0, [Value.Semaphore 0]⟩, [], []⟩ =
      .error VmError.NoThreadsInReadyQueue :=
  (c3_wait_deadlock_error (fun _ => 0) ⟨⟨0, 0, [Value.Semaphore 0]⟩, [], []⟩
    0 [] rfl rfl rfl).1

/-- C6: wait on a runtime whose current thread's operand stack is empty
fails with OperandStackUnderflow, and wait when the top operand-stack value
is not a Semaphore fails with the BadType type error of the conversion; in
both cases the result is an error, so neither the blocking nor the
decrementing behaviour happens. -/
theorem c6_wait_pop_errors (sems : SemStore) (rt : Runtime) :
    (rt.current_thread.operand_stack = [] →
      wait sems rt = .error VmError.OperandStackUnderflow)
    ∧ (∀ v rest, rt.current_thread.operand_stack = v :: rest →
        (∀ id, v ≠ Value.Semaphore id) →
        wait sems rt = .error (VmError.BadType "semaphore" v.type_name)) := by
  constructor
  · intro h
    unfold wait
    rw [h]
  · intro v rest h hv
    unfold wait
    rw [h]
    simp [try_into_sem_of_not_sem v hv]

/-- Witness for C6: an empty operand stack underflows, and a Bool on top of
the stack is rejected as a bad type. -/
theorem c6_witness :
    wait (fun _ => 0) ⟨⟨0, 0, []⟩, [], []⟩ =
      .error VmError.OperandStackUnderflow
    ∧ wait (fun _ => 0) ⟨⟨0, 0, [Value.Bool true]⟩, [], []⟩ =
        .error (VmError.BadType "semaphore" "bool") :=
  ⟨(c6_wait_pop_errors (fun _ => 0) ⟨⟨0, 0, []⟩, [], []⟩).1 rfl,
   (c6_wait_pop_errors (fun _ => 0) ⟨⟨0, 0, [Value.Bool true]⟩, [], []⟩).2
     (Value.Bool true) [] rfl (fun _ h => Value.noConfusion h)⟩

/-- C4: get after set in the same frame returns the just-set value; get of a
symbol absent from the local frame but bound in the parent chain returns the
ancestor's value; and set on a child frame shadows the ancestor's binding
for subsequent get on the child while leaving the parent reference (hence
the ancestor's frame) untouched. -/
theorem c4_env_scoping :
    (∀ (e : Environment) (s : Symbol) (v : Value), (e.set s v).get s = some v)
    ∧ (∀ (p : Environment) (frame : List (Symbol × Value)) (s : Symbol),
        frameLookup frame s = none →
        (Environment.mk (some p) frame).get s = p.get s)
    ∧ (∀ (p : Environment) (frame : List (Symbol × Value)) (s : Symbol)
        (v : Value),
        ((Environment.mk (some p) frame).set s v).get s = some v
        ∧ ((Environment.mk (some p) frame).set s v).parent = some p) := by
  refine ⟨?_, ?_, ?_⟩
  · intro e s v
    cases e with
    | mk parent frame =>
      rw [Environment.set, Environment.get]
      simp [frameInsert, frameLookup]
  · intro p frame s h
    rw [Environment.get, h]
    rfl
  · intro p frame s v
    refine ⟨?_, rfl⟩
    rw [Environment.set, Environment.get]
    simp [frameInsert, frameLookup]

/-- Witness for C4: a child frame with an empty local mapping defers the
lookup of x to its parent, where x is bound to 42. -/
theorem c4_witness :
    (Environment.mk (some (Environment.new.set "x" (Value.Int 42))) []).get "x"
      = (Environment.new.set "x" (Value.Int 42)).get "x" :=
  c4_env_scoping.2.1 (Environment.new.set "x" (Value.Int 42)) [] "x" rfl

/-- C5 (evaluation of new_global): the global environment binds the nine
constants true, false, PI, E, MAX_INT, MIN_INT, MAX_FLOAT, MIN_FLOAT and
EPSILON, but binds no builtin symbol: looking up tan yields None, because
the builtin-registration code in new_global is a commented-out stub even
though the function's own documentation says the math, string, conversion
and comparison builtins are added. -/
theorem c5_new_global_bindings :
    Environment.new_global.get "true" = some (Value.Bool true)
    ∧ Environment.new_global.get "false" = some (Value.Bool false)
    ∧ Environment.new_global.get "PI" = some (Value.Float f64.PI)
    ∧ Environment.new_global.get "E" = some (Value.Float f64.E)
    ∧ Environment.new_global.get "MAX_INT" = some (Value.Int i64.MAX)
    ∧ Environment.new_global.get "MIN_INT" = some (Value.Int i64.MIN)
    ∧ Environment.new_global.get "MAX_FLOAT" = some (Value.Float f64.MAX)
    ∧ Environment.new_global.get "MIN_FLOAT" = some (Value.Float f64.MIN)
    ∧ Environment.new_global.get "EPSILON" = some (Value.Float f64.EPSILON)
    ∧ Environment.new_global.get "tan" = none :=
  ⟨rfl, rfl, rfl, rfl, rfl, rfl, rfl, rfl, rfl, rfl⟩

/-- C8: for every serializer (any serializer type and any Ok/Error
associated types) and every environment, serializing the wrapped shared
environment reference never succeeds: it deliberately panics with the
message from the source, before consulting the serializer. -/
theorem c8_env_serialize_never_succeeds :
    ∀ (S OkT ErrT : Type) (serializer : S) (env : Environment),
      (∀ out : OkT,
        wEnvSerialize S OkT ErrT serializer env ≠ SerializeOutcome.ok out)
      ∧ wEnvSerialize S OkT ErrT serializer env =
          SerializeOutcome.panicked "Environment should not be serialized" := by
  intro S OkT ErrT serializer env
  exact ⟨fun out h => SerializeOutcome.noConfusion h, rfl⟩

/-- Witness for C8 at concrete types: the trivial serializer over Unit. -/
theorem c8_witness :
    wEnvSerialize Unit Unit Unit () Environment.new =
      SerializeOutcome.panicked "Environment should not be serialized" :=
  (c8_env_serialize_never_succeeds Unit Unit Unit () Environment.new).2

/-- C9: for every argument value, if it converts to a native float then
tan_impl returns Ok of the Float whose payload is the tangent (the native
tangent function ftan) of that float; and if it is not a Float value, the
conversion fails and tan_impl returns the BadType error carrying the
expected kind float and the found kind, succeeding with no value. -/
theorem c9_tan_impl_spec (ftan : f64 → f64) (v : Value) :
    (∀ x, Value.try_into_f64 v = .ok x →
      tan_impl ftan v = .ok (Value.Float (ftan x)))
    ∧ ((∀ x : f64, v ≠ Value.Float x) →
        tan_impl ftan v = .error (VmError.BadType "float" v.type_name)) := by
  constructor
  · intro x hx
    unfold tan_impl
    rw [hx]
  · intro hv
    cases v
    case Float f => exact absurd rfl (hv f)
    all_goals rfl

/-- Witness for C9: a Float argument succeeds with the tangent of its
payload, and a Bool argument fails with the BadType error. -/
theorem c9_witness :
    tan_impl (fun x => x) (Value.Float ⟨0⟩) = .ok (Value.Float ⟨0⟩)
    ∧ tan_impl (fun x => x) (Value.Bool true) =
        .error (VmError.BadType "float" "bool") :=
  ⟨(c9_tan_impl_spec (fun x => x) (Value.Float ⟨0⟩)).1 ⟨0⟩ rfl,
   (c9_tan_impl_spec (fun x => x) (Value.Bool true)).2
     (fun _ h => Value.noConfusion h)⟩

/-- C7: the source program 42 followed by the statement separator parses
and compiles to exactly load-constant 42, pop, done, and running that
program yields Unit; the source program 42 with no trailing separator
compiles to exactly load-constant 42, done, and running it yields 42. -/
theorem c7_round_trip :
    compileToks lex_42_semi =
      .ok [ByteCode.LDC (Value.Int 42), ByteCode.POP, ByteCode.DONE]
    ∧ runProgram [ByteCode.LDC (Value.Int 42), ByteCode.POP, ByteCode.DONE] =
        some Value.Unit
    ∧ compileToks lex_42 = .ok [ByteCode.LDC (Value.Int 42), ByteCode.DONE]
    ∧ runProgram [ByteCode.LDC (Value.Int 42), ByteCode.DONE] =
        some (Value.Int 42) :=
  ⟨rfl, rfl, rfl, rfl⟩

/-- Every successful run of the compiler's statement loop produces one code
per declaration, each immediately followed by a POP. -/
theorem compileDecls_shape :
    ∀ (ds : List Decl) (l : List ByteCode), compileDecls ds = .ok l →
      ∃ codes : List ByteCode,
        l = (codes.map (fun c => [c, ByteCode.POP])).flatten
        ∧ codes.length = ds.length := by
  intro ds
  induction ds with
  | nil =>
    intro l h
    simp [compileDecls] at h
    subst h
    exact ⟨[], rfl, rfl⟩
  | cons d ds ih =>
    intro l h
    unfold compileDecls at h
    cases hc : compile_decl d with
    | error e => rw [hc] at h; exact absurd h (by simp)
    | ok code =>
      rw [hc] at h
      cases hr : compileDecls ds with
      | error e => rw [hr] at h; exact absurd h (by simp)
      | ok rest =>
        rw [hr] at h
        obtain ⟨codes, hcodes, hlen⟩ := ih rest hr
        injection h with h
        refine ⟨code :: codes, ?_, by simp [hlen]⟩
        rw [← h, hcodes]
        simp

/-- C10: every bytecode sequence the compiler successfully emits is
non-empty, ends in DONE, and consists of the statement codes each
immediately followed by a POP, then the optional trailing-expression code,
then the final DONE. -/
theorem c10_compile_shape (p : BlockSeq) (bc : List ByteCode)
    (h : Compiler.compile p = .ok bc) :
    bc ≠ []
    ∧ bc.getLast? = some ByteCode.DONE
    ∧ ∃ codes tail : List ByteCode,
        bc = (codes.map (fun c => [c, ByteCode.POP])).flatten ++ tail ++
          [ByteCode.DONE]
        ∧ codes.length = p.decls.length
        ∧ tail.length ≤ 1 := by
  cases p with
  | mk ds le =>
    unfold Compiler.compile at h
    cases hd : compileDecls (BlockSeq.mk ds le).decls with
    | error e => rw [hd] at h; exact absurd h (by simp)
    | ok stmts =>
      rw [hd] at h
      obtain ⟨codes, hcodes, hlen⟩ := compileDecls_shape _ _ hd
      cases le with
      | none =>
        change Except.ok (stmts ++ [ByteCode.DONE]) = Except.ok bc at h
        injection h with h
        refine ⟨by rw [← h]; simp, by rw [← h]; simp [List.getLast?_concat],
                codes, [], ?_, hlen, by simp⟩
        rw [← h, hcodes]
        simp
      | some e =>
        change (match compile_expr e with
                | .error err => Except.error err
                | .ok code =>
                  Except.ok (stmts ++ [code] ++ [ByteCode.DONE])) =
            Except.ok bc at h
        cases hce : compile_expr e with
        | error err => rw [hce] at h; exact Except.noConfusion h
        | ok code =>
          rw [hce] at h
          injection h with h
          refine ⟨by rw [← h]; simp, ?_, codes, [code], ?_, hlen, by simp⟩
          · rw [← h]
            have hassoc : stmts ++ [code] ++ [ByteCode.DONE] =
                (stmts ++ [code]) ++ [ByteCode.DONE] := by simp
            rw [hassoc, List.getLast?_concat]
          · rw [← h, hcodes]

/-- Witness for C10 on the concrete program consisting of the single
statement 42 followed by a separator, whose compilation is load-constant
42, pop, done. -/
theorem c10_witness :
    ([ByteCode.LDC (Value.Int 42), ByteCode.POP, ByteCode.DONE] :
        List ByteCode) ≠ []
    ∧ ([ByteCode.LDC (Value.Int 42), ByteCode.POP,
        ByteCode.DONE] : List ByteCode).getLast? = some ByteCode.DONE
    ∧ ∃ codes tail : List ByteCode,
        [ByteCode.LDC (Value.Int 42), ByteCode.POP, ByteCode.DONE] =
          (codes.map (fun c => [c, ByteCode.POP])).flatten ++ tail ++
            [ByteCode.DONE]
        ∧ codes.length =
            (BlockSeq.mk [Decl.ExprStmt (Expr.Integer 42)] none).decls.length
        ∧ tail.length ≤ 1 :=
  c10_compile_shape (BlockSeq.mk [Decl.ExprStmt (Expr.Integer 42)] none)
    [ByteCode.LDC (Value.Int 42), ByteCode.POP, ByteCode.DONE] rfl

end RustScript
